import Mathlib

/-!
Verification of the RealTimeTaskManager backend (Django) against its
natural-language specification.  The Python source under
`backend/apps/tasks`, `backend/apps/chat` and `backend/apps/core` is
shallowly embedded: each Django view/model method used by the claims is
translated into an executable Lean function over explicit state records.
-/

namespace RTTM

/-! ### Python string primitives

`str.strip` and `str.lower` are re-implemented over character lists so that
every definition here evaluates by kernel reduction. -/

/-- Python `str.strip()` (also DRF `CharField` whitespace trimming). -/
def pyStrip (s : String) : String :=
  (((s.toList).dropWhile Char.isWhitespace).reverse.dropWhile
    Char.isWhitespace).reverse.asString

/-- Python `str.lower()` restricted to ASCII, which is all the code compares. -/
def pyLower (s : String) : String :=
  (s.toList.map Char.toLower).asString

/-! ### Status and priority choices (backend/apps/tasks/models.py) -/

/-- The `Status.choices` enumeration values. -/
def statusChoices : List String :=
  ["todo", "in_progress", "review", "done", "cancelled"]

/-- The `Priority.choices` enumeration values. -/
def priorityChoices : List String :=
  ["low", "normal", "high", "urgent"]

/-- `Task.ALLOWED_TRANSITIONS` — dict lookup with default `[]` (`dict.get`). -/
def allowedTransitions : String → List String
  | "todo" => ["in_progress", "cancelled"]
  | "in_progress" => ["review", "done", "cancelled"]
  | "review" => ["in_progress", "done", "cancelled"]
  | "done" => []
  | "cancelled" => []
  | _ => []

/-- A row of the `Task` model (the fields the claims touch). -/
structure Task where
  id : Nat
  title : String
  description : String
  createdById : Nat
  assignedTo : List Nat
  priority : String
  status : String
  dueDate : Option Nat
  createdAt : Nat
  completedAt : Option Nat
deriving Repr, DecidableEq

/-- `Task.can_transition` (models.py lines 63-66). -/
def Task.can_transition (t : Task) (newStatus : String) : Bool :=
  (allowedTransitions t.status).contains newStatus

/-! ### `update_status` action (backend/apps/tasks/views.py lines 322-395)

The request payload is validated by `StatusUpdateSerializer`
(serializers.py lines 69-81): `status` is a required `ChoiceField` over
`Status.choices`; `reason` is an optional `CharField` with
`allow_blank=False` and DRF's default whitespace trimming. -/

/-- Raw payload of a `POST .../update_status/` request. -/
structure StatusUpdateData where
  status : Option String
  reason : Option String
deriving Repr, DecidableEq

/-- The distinguishable 400-level rejections of `update_status`. -/
inductive UpdErr where
  | fieldError
  | invalidStatus
  | invalidTransition
  | missingReason
deriving Repr, DecidableEq

/-- `StatusUpdateSerializer.is_valid`: `status` must be present and a valid
choice; `reason`, when present, is whitespace-trimmed and may not be blank. -/
def statusUpdateValidate (d : StatusUpdateData) :
    Except UpdErr (String × Option String) :=
  match d.status with
  | none => .error .fieldError
  | some s =>
    if !(statusChoices.contains s) then .error .fieldError
    else
      match d.reason with
      | none => .ok (s, none)
      | some r =>
        let r := pyStrip r
        if r == "" then .error .fieldError else .ok (s, some r)

/-- `details` of the `status_changed` activity-log entry: `old_status`,
`new_status`, and `reason` only when a reason was supplied. -/
structure StatusChangeDetails where
  old_status : String
  new_status : String
  reason : Option String
deriving Repr, DecidableEq

/-- Everything `update_status` persists/emits on success. -/
structure StatusUpdateOutcome where
  task : Task
  details : StatusChangeDetails
  notified : List Nat
  systemMessage : Option String
deriving Repr, DecidableEq

/-- `TaskViewSet.update_status` (views.py lines 322-395): serializer
validation, the dead-code re-check of `Status.choices`, the
`can_transition` guard, the mandatory-reason guard for the critical
statuses, then the mutation, activity log, per-assignee notification and
(when the task's chat room exists) the system chat message.
`create_system_message` (views.py lines 116-178) returns `None` when no
`room_type='task'` room exists for the task, so `systemMessage` is `none`
in that case. -/
def update_status (task : Task) (d : StatusUpdateData) (actorName : String)
    (now : Nat) (roomExists : Bool) : Except UpdErr StatusUpdateOutcome :=
  match statusUpdateValidate d with
  | .error e => .error e
  | .ok (new_status, reason) =>
    if !(statusChoices.contains new_status) then .error .invalidStatus
    else if !(task.can_transition new_status) then .error .invalidTransition
    else if (["cancelled", "done"].contains new_status) && reason.isNone then
      .error .missingReason
    else
      let task' : Task :=
        { task with
          status := new_status
          completedAt := if new_status == "done" then some now else task.completedAt }
      let base := "Status changed to " ++ new_status ++ " by " ++ actorName
      let sysContent :=
        match reason with
        | some r => base ++ ". Reason: " ++ r
        | none => base
      .ok
        { task := task'
          details := ⟨task.status, new_status, reason⟩
          notified := task'.assignedTo
          systemMessage := if roomExists then some sysContent else none }

/-- The stored task row after an `update_status` call: unchanged when the
view rejects the request, the saved row on success. -/
def update_status_state (task : Task) (d : StatusUpdateData) (actorName : String)
    (now : Nat) (roomExists : Bool) : Task :=
  match update_status task d actorName now roomExists with
  | .error _ => task
  | .ok o => o.task

/-- A concrete `in_progress` task used by several counterexamples. -/
def exTaskInProgress : Task :=
  { id := 1, title := "T", description := "", createdById := 1, assignedTo := [5]
    priority := "normal", status := "in_progress", dueDate := none
    createdAt := 0, completedAt := none }

/-- Success condition that `update_status` actually enforces: the target is
reachable in the transition table, and the reason field passes validation
(absent is allowed only for non-critical targets; a present reason must be
non-blank after trimming). -/
def statusUpdateOkSpec (task : Task) (d : StatusUpdateData) : Prop :=
  ∃ s, d.status = some s ∧ task.can_transition s = true ∧
    ((d.reason = none ∧ ["cancelled", "done"].contains s = false) ∨
      (∃ r, d.reason = some r ∧ pyStrip r ≠ ""))

/-- A status reachable by `can_transition` is always one of the model's
`Status.choices`. -/
theorem can_transition_mem_choices (t : Task) (s : String)
    (h : t.can_transition s = true) : statusChoices.contains s = true := by
  unfold Task.can_transition allowedTransitions at h
  split at h <;> simp_all [statusChoices] <;> tauto

/-- C1 counterexample: for the stored status `in_progress` and target `done`,
the target is in the transition table, yet `update_status` rejects the
request (missing reason), so "succeeds iff `t ∈ table[s]`" is false. -/
theorem C1_counterexample :
    exTaskInProgress.can_transition "done" = true ∧
    update_status exTaskInProgress ⟨some "done", none⟩ "alice" 5 true =
      .error .missingReason :=
  ⟨rfl, rfl⟩

/-- C1 (amended): `update_status` succeeds iff the target `t` is in the
transition table for the stored status *and* the reason rule is satisfied
(a reason may be absent only for non-critical targets; a present reason
must be non-blank after trimming); on every rejection the stored status is
unchanged. -/
theorem C1_update_status_success_iff (task : Task) (d : StatusUpdateData)
    (actor : String) (now : Nat) (re : Bool) :
    ((∃ o, update_status task d actor now re = .ok o) ↔
      statusUpdateOkSpec task d) ∧
    (∀ e, update_status task d actor now re = .error e →
      update_status_state task d actor now re = task) := by
  constructor
  · rcases d with ⟨ds, dr⟩
    unfold statusUpdateOkSpec update_status statusUpdateValidate
    cases ds with
    | none => simp
    | some s =>
      by_cases hA : s ∈ statusChoices
      · by_cases hB : task.can_transition s = true
        · by_cases hC : s = "cancelled" ∨ s = "done"
          · cases dr with
            | none =>
              simp [hA, hB, hC]
              tauto
            | some r =>
              by_cases hD : pyStrip r = ""
              · simp [hA, hD]
              · simp [hA, hB, hC, hD]
          · push_neg at hC
            cases dr with
            | none => simp [hA, hB, hC.1, hC.2]
            | some r =>
              by_cases hD : pyStrip r = ""
              · simp [hA, hD]
              · simp [hA, hB, hC.1, hC.2, hD]
        · have hB2 : task.can_transition s = false := by
            simpa using hB
          cases dr with
          | none => simp [hA, hB2]
          | some r =>
            by_cases hD : pyStrip r = ""
            · simp [hA, hD]
            · simp [hA, hB2, hD]
      · constructor
        · rintro ⟨o, ho⟩
          simp [hA] at ho
        · rintro ⟨s2, hs2, hB2, _⟩
          cases hs2
          exact (hA (by simpa using can_transition_mem_choices task s hB2)).elim
  · intro e h
    unfold update_status_state
    rw [h]

/-- Witness for `C1_update_status_success_iff` at a concrete rejected input. -/
theorem C1_update_status_success_iff_witness :
    update_status_state exTaskInProgress ⟨some "done", none⟩ "alice" 5 true =
      exTaskInProgress :=
  (C1_update_status_success_iff exTaskInProgress ⟨some "done", none⟩
    "alice" 5 true).2 .missingReason rfl

/-! ### `TaskUpdateSerializer` and plain updates (serializers.py lines 59-66,
views.py lines 72-114)

`TaskUpdateSerializer` exposes `title`, `description`, `priority`,
`status`, `due_date`.  Field validation is the DRF/model default: choice
fields must hold a declared choice, `title` is a trimmed non-blank
`CharField(max_length=255)`, `description` allows blank, `due_date` allows
null.  There is no transition validation anywhere in it. -/

/-- A (partial) update payload for the `TaskUpdateSerializer` fields.
`none` means the field is absent from the payload. -/
structure TaskPatch where
  title : Option String
  description : Option String
  priority : Option String
  status : Option String
  dueDate : Option (Option Nat)
deriving Repr, DecidableEq

/-- Names of the fields that fail `TaskUpdateSerializer` validation. -/
def taskPatchErrors (p : TaskPatch) : List String :=
  (match p.title with
   | some t => if pyStrip t == "" || t.length > 255 then ["title"] else []
   | none => []) ++
  (match p.priority with
   | some pr => if priorityChoices.contains pr then [] else ["priority"]
   | none => []) ++
  (match p.status with
   | some s => if statusChoices.contains s then [] else ["status"]
   | none => [])

/-- `serializer.save()` for `TaskUpdateSerializer`: set each supplied field
on the instance.  String fields store the trimmed value (DRF default). -/
def applyPatch (task : Task) (p : TaskPatch) : Task :=
  { task with
    title := (p.title.map pyStrip).getD task.title
    description := (p.description.map pyStrip).getD task.description
    priority := p.priority.getD task.priority
    status := p.status.getD task.status
    dueDate := p.dueDate.getD task.dueDate }

/-- `TaskViewSet.perform_update` (views.py lines 72-114) through
`TaskUpdateSerializer`: validate the payload, save the patched row, notify
assignees when the status changed.  No transition check is performed. -/
def perform_update (task : Task) (p : TaskPatch) :
    Except (List String) (Task × List Nat) :=
  if taskPatchErrors p ≠ [] then .error (taskPatchErrors p)
  else
    let task' := applyPatch task p
    let notified := if task'.status != task.status then task'.assignedTo else []
    .ok (task', notified)

/-! ### Bulk operations (views.py lines 612-746) -/

/-- A row of the custom `User` model (role is a plain string). -/
structure User where
  id : Nat
  role : String
  username : String
deriving Repr, DecidableEq

/-- The rejections shared by the three bulk endpoints.  `notSupported` is
the database-level error surfaced when a locking query cannot be executed
(PostgreSQL rejects `SELECT DISTINCT ... FOR UPDATE`). -/
inductive BulkErr where
  | badRequest
  | forbidden
  | validationErrors (fields : List String)
  | notSupported
deriving Repr, DecidableEq

/-- Everything a bulk endpoint persists/emits on success: the new task
table, the response id list, one activity-log row per `(task, action)`
pair, one notification row per `(user, task)` pair, and one system chat
message per `(task, content)` pair. -/
structure BulkOutcome where
  db : List Task
  respIds : List Nat
  logs : List (Nat × String)
  notifications : List (Nat × Nat)
  systemMessages : List (Nat × String)
deriving Repr, DecidableEq

/-- `Task.objects.select_for_update().filter(id__in=ids)`: the rows whose
id is in the supplied list, in the model's default `Meta.ordering`
(`-created_at`, models.py lines 48-49), which the database applies before
the row locks are taken. -/
def lockedRows (db : List Task) (ids : List Nat) : List Task :=
  List.insertionSort (fun a b => b.createdAt ≤ a.createdAt)
    (db.filter (fun t => ids.contains t.id))

/-- The per-task ATL permission predicate used by `bulk_update` (views.py
lines 639-644) and the equivalent queryset filter in `bulk_assign` (line
697): the ATL created the task, or some clerk/atm user is assigned. -/
def atlPermitted (usersDb : List User) (actor : User) (t : Task) : Bool :=
  t.createdById == actor.id ||
    usersDb.any (fun u =>
      t.assignedTo.contains u.id && (u.role == "clerk" || u.role == "atm"))

/-- `TaskViewSet.bulk_update` (views.py lines 612-666). -/
def bulk_update (db : List Task) (usersDb : List User) (actor : User)
    (ids : List Nat) (data : TaskPatch) : Except BulkErr BulkOutcome :=
  if ids.isEmpty then .error .badRequest
  else if !(actor.role == "supervisor" || actor.role == "atl") then
    .error .forbidden
  else
    let locked := lockedRows db ids
    let tasksToUpdate :=
      if actor.role == "atl" then locked.filter (atlPermitted usersDb actor)
      else locked
    if taskPatchErrors data ≠ [] then .error (.validationErrors (taskPatchErrors data))
    else
      let updatedIds := tasksToUpdate.map (·.id)
      .ok
        { db := db.map (fun t =>
            if updatedIds.contains t.id then applyPatch t data else t)
          respIds := updatedIds
          logs := tasksToUpdate.map (fun t => (t.id, "bulk_updated"))
          notifications := []
          systemMessages := [] }

/-- `TaskViewSet.bulk_assign` (views.py lines 668-724).  The ATL branch
(line 697) chains the permission filter and `.distinct()` onto the
`select_for_update()` locking queryset, so its first evaluation issues
`SELECT DISTINCT ... FOR UPDATE`, which the configured PostgreSQL backend
rejects (the avoidance comment at views.py line 638 documents exactly this
failure mode) — that branch raises before any row is read, locked or
mutated.  `roomExists i` says whether a `room_type='task'` chat room
exists for task `i` (`create_system_message` silently does nothing when it
does not). -/
def bulk_assign (db : List Task) (usersDb : List User) (actor : User)
    (ids : List Nat) (userIds : List Nat) (replace : Bool)
    (roomExists : Nat → Bool) : Except BulkErr BulkOutcome :=
  if ids.isEmpty || userIds.isEmpty then .error .badRequest
  else if !(actor.role == "supervisor" || actor.role == "atl") then
    .error .forbidden
  else
    let users := usersDb.filter (fun u => userIds.contains u.id)
    if users.isEmpty then .error .badRequest
    else if actor.role == "atl" then .error .notSupported
    else
      let qs := lockedRows db ids
      let assignedTaskIds := qs.map (·.id)
      let newAssigned (t : Task) : List Nat :=
        if replace then users.map (·.id)
        else t.assignedTo ++
          ((users.map (·.id)).filter (fun uid => !(t.assignedTo.contains uid)))
      let names := String.intercalate ", " (users.map (·.username))
      .ok
        { db := db.map (fun t =>
            if assignedTaskIds.contains t.id then
              { t with assignedTo := newAssigned t }
            else t)
          respIds := assignedTaskIds
          logs := qs.map (fun t => (t.id, "bulk_assigned"))
          notifications := qs.flatMap (fun t => users.map (fun u => (u.id, t.id)))
          systemMessages := qs.filterMap (fun t =>
            if roomExists t.id then some (t.id, "Assigned: " ++ names) else none) }

/-- `TaskViewSet.bulk_delete` (views.py lines 726-746). -/
def bulk_delete (db : List Task) (actor : User) (ids : List Nat) :
    Except BulkErr BulkOutcome :=
  if ids.isEmpty then .error .badRequest
  else if actor.role != "supervisor" then .error .forbidden
  else
    let qs := lockedRows db ids
    let deletedIds := qs.map (·.id)
    .ok
      { db := db.filter (fun t => !(deletedIds.contains t.id))
        respIds := deletedIds
        logs := qs.map (fun t => (t.id, "bulk_deleted"))
        notifications := []
        systemMessages := [] }

/-- Inversion: a successful `update_status` stores exactly the requested
status and that status was reachable in the transition table. -/
theorem update_status_ok_cases (task : Task) (d : StatusUpdateData)
    (actor : String) (now : Nat) (re : Bool) (o : StatusUpdateOutcome)
    (h : update_status task d actor now re = .ok o) :
    d.status = some o.task.status ∧
      task.can_transition o.task.status = true := by
  unfold update_status statusUpdateValidate at h
  rcases d with ⟨ds, dr⟩
  cases ds with
  | none => simp at h
  | some s =>
    by_cases hA : s ∈ statusChoices
    · by_cases hB : task.can_transition s = true
      · by_cases hC : s = "cancelled" ∨ s = "done"
        · cases dr with
          | none => simp [hA, hB, hC] at h
          | some r =>
            by_cases hD : pyStrip r = ""
            · simp [hA, hD] at h
            · simp [hA, hB, hC, hD] at h
              subst h
              exact ⟨rfl, hB⟩
        · push_neg at hC
          cases dr with
          | none =>
            simp [hA, hB, hC.1, hC.2] at h
            subst h
            exact ⟨rfl, hB⟩
          | some r =>
            by_cases hD : pyStrip r = ""
            · simp [hA, hD] at h
            · simp [hA, hB, hC.1, hC.2, hD] at h
              subst h
              exact ⟨rfl, hB⟩
      · have hB2 : task.can_transition s = false := by simpa using hB
        cases dr with
        | none => simp [hA, hB2] at h
        | some r =>
          by_cases hD : pyStrip r = ""
          · simp [hA, hD] at h
          · simp [hA, hB2, hD] at h
    · simp [hA] at h

/-- `lockedRows` contains exactly the task rows whose id was supplied. -/
theorem mem_lockedRows (db : List Task) (ids : List Nat) (t : Task) :
    t ∈ lockedRows db ids ↔ t ∈ db ∧ ids.contains t.id = true := by
  unfold lockedRows
  rw [(List.perm_insertionSort _ _).mem_iff, List.mem_filter]

/-- A task row whose status held `done` and a supervisor caller. -/
def exTaskDone : Task :=
  { id := 1, title := "T", description := "", createdById := 1, assignedTo := [5]
    priority := "normal", status := "done", dueDate := none
    createdAt := 0, completedAt := some 3 }

/-- A supervisor user. -/
def exSupervisor : User := ⟨9, "supervisor", "sup"⟩

/-- A payload patching only the status to `todo`. -/
def exPatchTodo : TaskPatch := ⟨none, none, none, some "todo", none⟩

/-- C2 counterexample: `done → todo` is outside the transition table, yet a
supervisor `bulk_update` with `data={status: todo}` moves the stored task
from `done` back to `todo`. -/
theorem C2_counterexample :
    Task.can_transition exTaskDone "todo" = false ∧
    bulk_update [exTaskDone] [] exSupervisor [1] exPatchTodo =
      .ok
        { db := [{ exTaskDone with status := "todo" }]
          respIds := [1]
          logs := [(1, "bulk_updated")]
          notifications := []
          systemMessages := [] } :=
  ⟨rfl, rfl⟩

/-- C2 (amended): only the `update_status` action enforces the
`TaskStateMachine` table.  A plain update through `TaskUpdateSerializer`
(`perform_update`) and a supervisor `bulk_update` accept any declared
status choice and store it regardless of the stored status, so statuses
can move outside the table (e.g. `done` back to `todo`). -/
theorem C2_status_guard_coverage :
    (∀ (task : Task) (d : StatusUpdateData) (actor : String) (now : Nat)
      (re : Bool) (o : StatusUpdateOutcome),
      update_status task d actor now re = .ok o →
        task.can_transition o.task.status = true) ∧
    (∀ (task : Task) (s : String), statusChoices.contains s = true →
      perform_update task ⟨none, none, none, some s, none⟩ =
        .ok ({ task with status := s },
          if s != task.status then task.assignedTo else [])) ∧
    (∀ (db : List Task) (usersDb : List User) (actor : User) (ids : List Nat)
      (s : String), actor.role = "supervisor" → ids ≠ [] →
      statusChoices.contains s = true →
      bulk_update db usersDb actor ids ⟨none, none, none, some s, none⟩ =
        .ok
          { db := db.map (fun t =>
              if ids.contains t.id then { t with status := s } else t)
            respIds := (lockedRows db ids).map (·.id)
            logs := (lockedRows db ids).map (fun t => (t.id, "bulk_updated"))
            notifications := []
            systemMessages := [] }) := by
  refine ⟨?_, ?_, ?_⟩
  · intro task d actor now re o h
    exact (update_status_ok_cases task d actor now re o h).2
  · intro task s hs
    have hs2 : s ∈ statusChoices := by simpa using hs
    unfold perform_update taskPatchErrors applyPatch
    simp [hs2]
  · intro db usersDb actor ids s hrole hids hs
    unfold bulk_update
    have hempty : ids.isEmpty = false := by
      cases ids with
      | nil => exact absurd rfl hids
      | cons a l => rfl
    have hs2 : s ∈ statusChoices := by simpa using hs
    have herr : taskPatchErrors ⟨none, none, none, some s, none⟩ = [] := by
      unfold taskPatchErrors
      simp [hs2]
    have hcont : ∀ t ∈ db,
        ((lockedRows db ids).map (·.id)).contains t.id = ids.contains t.id := by
      intro t ht
      by_cases hc : ids.contains t.id = true
      · rw [hc]
        simp only [List.contains, List.elem_eq_mem, List.mem_map,
          decide_eq_true_eq]
        exact ⟨t, (mem_lockedRows db ids t).2 ⟨ht, hc⟩, rfl⟩
      · have hc2 : ids.contains t.id = false := by simpa using hc
        rw [hc2]
        simp only [List.contains, List.elem_eq_mem, List.mem_map,
          decide_eq_false_iff_not]
        rintro ⟨v, hv, hvid⟩
        have hvin := (mem_lockedRows db ids v).1 hv
        rw [hvid] at hvin
        exact hc hvin.2
    have hmap : db.map (fun t =>
        if ((lockedRows db ids).map (·.id)).contains t.id then
          applyPatch t ⟨none, none, none, some s, none⟩
        else t) =
        db.map (fun t =>
          if ids.contains t.id then { t with status := s } else t) := by
      apply List.map_congr_left
      intro t ht
      rw [hcont t ht]
      rfl
    simp only [hempty, hrole, herr, Bool.false_eq_true, if_false,
      String.reduceEq, String.reduceBEq, Bool.or_false, Bool.or_true,
      Bool.not_true, Bool.not_false, ne_eq, not_true_eq_false,
      not_false_eq_true, reduceIte]
    rw [hmap]

/-- Witness for `C2_status_guard_coverage` at a concrete input: a supervisor
bulk-update of a `done` task to `in_progress`. -/
theorem C2_status_guard_coverage_witness :
    bulk_update [exTaskDone] [] exSupervisor [1]
        ⟨none, none, none, some "in_progress", none⟩ =
      .ok
        { db := [exTaskDone].map (fun t =>
            if List.contains [1] t.id then { t with status := "in_progress" }
            else t)
          respIds := (lockedRows [exTaskDone] [1]).map (·.id)
          logs := (lockedRows [exTaskDone] [1]).map
            (fun t => (t.id, "bulk_updated"))
          notifications := []
          systemMessages := [] } :=
  C2_status_guard_coverage.2.2 [exTaskDone] [] exSupervisor [1]
    "in_progress" rfl (by decide) (by decide)

/-- C4 counterexample: a supervisor `bulk_update` patching the due date of a
task that has an assignee updates the row and logs it, but emits zero
notifications and zero system chat messages, contradicting "one
notification per affected user per row" and "for bulk_update ... a system
chat message is emitted". -/
theorem C4_counterexample :
    exTaskDone.assignedTo = [5] ∧
    bulk_update [exTaskDone] [] exSupervisor [1]
        ⟨none, none, none, none, some (some 7)⟩ =
      .ok
        { db := [{ exTaskDone with dueDate := some 7 }]
          respIds := [1]
          logs := [(1, "bulk_updated")]
          notifications := []
          systemMessages := [] } :=
  ⟨rfl, rfl⟩

/-- C4 (amended): each bulk operation that completes mutates each permitted
row and appends exactly one activity-log entry per row, but only
`bulk_assign` emits notifications (one per valid requested user per row)
and system chat messages (one per row whose task chat room exists);
`bulk_update` and `bulk_delete` emit neither notifications nor chat
messages.  For `bulk_assign` only the supervisor path completes at all: an
ATL call never succeeds, because its locking query (`DISTINCT` chained
onto `FOR UPDATE`) is rejected by the database before any row is
mutated. -/
theorem C4_bulk_side_effects :
    (∀ (db : List Task) (usersDb : List User) (actor : User) (ids : List Nat)
      (data : TaskPatch) (o : BulkOutcome),
      bulk_update db usersDb actor ids data = .ok o →
        o.db = db.map (fun t =>
          if o.respIds.contains t.id then applyPatch t data else t) ∧
        o.logs = o.respIds.map (fun i => (i, "bulk_updated")) ∧
        o.notifications = [] ∧ o.systemMessages = []) ∧
    (∀ (db : List Task) (usersDb : List User) (actor : User) (ids : List Nat)
      (userIds : List Nat) (replace : Bool) (roomExists : Nat → Bool)
      (o : BulkOutcome),
      bulk_assign db usersDb actor ids userIds replace roomExists = .ok o →
        (let sel := usersDb.filter (fun u => userIds.contains u.id)
         o.db = db.map (fun t =>
           if o.respIds.contains t.id then
             { t with assignedTo :=
                 if replace then sel.map (·.id)
                 else t.assignedTo ++
                   ((sel.map (·.id)).filter
                     (fun uid => !(t.assignedTo.contains uid))) }
           else t) ∧
         o.logs = o.respIds.map (fun i => (i, "bulk_assigned")) ∧
         o.notifications =
           o.respIds.flatMap (fun i => sel.map (fun u => (u.id, i))) ∧
         o.systemMessages = o.respIds.filterMap (fun i =>
           if roomExists i then
             some (i, "Assigned: " ++
               String.intercalate ", " (sel.map (·.username)))
           else none))) ∧
    (∀ (db : List Task) (usersDb : List User) (actor : User) (ids : List Nat)
      (userIds : List Nat) (replace : Bool) (roomExists : Nat → Bool)
      (o : BulkOutcome), actor.role = "atl" →
      bulk_assign db usersDb actor ids userIds replace roomExists ≠ .ok o) ∧
    (∀ (db : List Task) (actor : User) (ids : List Nat) (o : BulkOutcome),
      bulk_delete db actor ids = .ok o →
        o.db = db.filter (fun t => !(o.respIds.contains t.id)) ∧
        o.logs = o.respIds.map (fun i => (i, "bulk_deleted")) ∧
        o.notifications = [] ∧ o.systemMessages = []) := by
  refine ⟨?_, ?_, ?_, ?_⟩
  · intro db usersDb actor ids data o h
    unfold bulk_update at h
    simp only [] at h
    by_cases h1 : ids.isEmpty = true
    · rw [if_pos h1] at h
      exact Except.noConfusion h
    rw [if_neg h1] at h
    by_cases h2 : (!(actor.role == "supervisor" || actor.role == "atl")) = true
    · rw [if_pos h2] at h
      exact Except.noConfusion h
    rw [if_neg h2] at h
    by_cases h3 : taskPatchErrors data ≠ []
    · rw [if_pos h3] at h
      exact Except.noConfusion h
    rw [if_neg h3] at h
    simp only [Except.ok.injEq] at h
    subst h
    exact ⟨rfl, by rw [List.map_map]; rfl, rfl, rfl⟩
  · intro db usersDb actor ids userIds replace roomExists o h
    unfold bulk_assign at h
    simp only [] at h
    by_cases h1 : (ids.isEmpty || userIds.isEmpty) = true
    · rw [if_pos h1] at h
      exact Except.noConfusion h
    rw [if_neg h1] at h
    by_cases h2 : (!(actor.role == "supervisor" || actor.role == "atl")) = true
    · rw [if_pos h2] at h
      exact Except.noConfusion h
    rw [if_neg h2] at h
    by_cases h3 :
      ((usersDb.filter (fun u => userIds.contains u.id)).isEmpty) = true
    · rw [if_pos h3] at h
      exact Except.noConfusion h
    rw [if_neg h3] at h
    by_cases h4 : (actor.role == "atl") = true
    · rw [if_pos h4] at h
      exact Except.noConfusion h
    rw [if_neg h4] at h
    simp only [Except.ok.injEq] at h
    subst h
    exact ⟨rfl, by rw [List.map_map]; rfl, by rw [List.flatMap_map],
      by rw [List.filterMap_map]; rfl⟩
  · intro db usersDb actor ids userIds replace roomExists o hrole h
    unfold bulk_assign at h
    simp only [] at h
    by_cases h1 : (ids.isEmpty || userIds.isEmpty) = true
    · rw [if_pos h1] at h
      exact Except.noConfusion h
    rw [if_neg h1] at h
    rw [if_neg (by rw [hrole]; decide)] at h
    by_cases h3 :
      ((usersDb.filter (fun u => userIds.contains u.id)).isEmpty) = true
    · rw [if_pos h3] at h
      exact Except.noConfusion h
    rw [if_neg h3] at h
    rw [if_pos (by rw [hrole]; decide)] at h
    exact Except.noConfusion h
  · intro db actor ids o h
    unfold bulk_delete at h
    simp only [] at h
    by_cases h1 : ids.isEmpty = true
    · rw [if_pos h1] at h
      exact Except.noConfusion h
    rw [if_neg h1] at h
    by_cases h2 : (actor.role != "supervisor") = true
    · rw [if_pos h2] at h
      exact Except.noConfusion h
    rw [if_neg h2] at h
    simp only [Except.ok.injEq] at h
    subst h
    exact ⟨rfl, by rw [List.map_map]; rfl, rfl, rfl⟩

/-- Witness for `C4_bulk_side_effects`: the `bulk_assign` clause evaluated
at a concrete call. -/
theorem C4_bulk_side_effects_witness :
    (let sel := [⟨5, "clerk", "eve"⟩].filter
      (fun u : User => List.contains [5] u.id)
     ([{ exTaskDone with assignedTo := [5] }] : List Task) =
       [exTaskDone].map (fun t =>
         if List.contains [1] t.id then
           { t with assignedTo :=
               if false then sel.map (·.id)
               else t.assignedTo ++
                 ((sel.map (·.id)).filter
                   (fun uid => !(t.assignedTo.contains uid))) }
         else t) ∧
     ([(1, "bulk_assigned")] : List (Nat × String)) =
       [1].map (fun i => (i, "bulk_assigned")) ∧
     ([(5, 1)] : List (Nat × Nat)) =
       [1].flatMap (fun i => sel.map (fun u => (u.id, i))) ∧
     ([] : List (Nat × String)) = [1].filterMap (fun i =>
       if (fun _ => false) i then
         some (i, "Assigned: " ++
           String.intercalate ", " (sel.map (·.username)))
       else none)) := by
  have h := C4_bulk_side_effects.2.1 [exTaskDone] [⟨5, "clerk", "eve"⟩]
    exSupervisor [1] [5] false (fun _ => false)
    { db := [{ exTaskDone with assignedTo := [5] }]
      respIds := [1]
      logs := [(1, "bulk_assigned")]
      notifications := [(5, 1)]
      systemMessages := [] } rfl
  exact h

/-- C5: the row set selected by the shared locking queryset
`select_for_update().filter(id__in=ids)` — used by `bulk_update`,
`bulk_delete` and the supervisor path of `bulk_assign` — is exactly the
stored rows whose id is in the supplied list, ordered by the model's
default ordering (`-created_at`), independently of the order of the
supplied id list.  The claim nevertheless fails on the code at the ATL
`bulk_assign` input evaluated in the last conjunct: there the permission
filter and `DISTINCT` are folded into the locking query itself, the
database rejects it, and the call errors without ever locking the
id-matching row that the claim prescribes (and that `lockedRows` shows is
present). -/
theorem C5_lock_scope :
    (∀ (db : List Task) (ids : List Nat) (t : Task),
      t ∈ lockedRows db ids ↔ t ∈ db ∧ ids.contains t.id = true) ∧
    (∀ (db : List Task) (ids ids2 : List Nat),
      (∀ i, i ∈ ids ↔ i ∈ ids2) → lockedRows db ids = lockedRows db ids2) ∧
    (∀ (db : List Task) (ids : List Nat),
      (lockedRows db ids).Pairwise (fun a b => b.createdAt ≤ a.createdAt)) ∧
    (bulk_assign [exTaskDone] [⟨5, "clerk", "eve"⟩] ⟨8, "atl", "lee"⟩
        [1] [5] false (fun _ => false) = .error .notSupported ∧
      lockedRows [exTaskDone] [1] = [exTaskDone]) := by
  refine ⟨mem_lockedRows, ?_, ?_, rfl, rfl⟩
  · intro db ids ids2 hiff
    unfold lockedRows
    congr 1
    apply List.filter_congr
    intro t _
    simp only [List.contains, List.elem_eq_mem]
    exact decide_eq_decide.mpr (hiff t.id)
  · intro db ids
    haveI hTot : IsTotal Task (fun a b => b.createdAt ≤ a.createdAt) :=
      ⟨fun a b => le_total b.createdAt a.createdAt⟩
    haveI hTrans : IsTrans Task (fun a b => b.createdAt ≤ a.createdAt) :=
      ⟨fun _ _ _ hab hbc => le_trans hbc hab⟩
    exact List.sorted_insertionSort _ _

/-- Witness for `C5_lock_scope`: the locked row sequence for id lists
`[2, 1]` and `[1, 2]` coincides. -/
theorem C5_lock_scope_witness :
    lockedRows [exTaskDone, exTaskInProgress] [2, 1] =
      lockedRows [exTaskDone, exTaskInProgress] [1, 2] :=
  C5_lock_scope.2.1 [exTaskDone, exTaskInProgress] [2, 1] [1, 2]
    (fun i => by
      simp only [List.mem_cons, List.not_mem_nil, or_false]
      exact Or.comm)

/-- C3 counterexample: with an empty-string reason the request to move an
`in_progress` task to `done` is rejected by the serializer's
`allow_blank=False` as a field validation error, not by the MissingReason
guard — so "fails with MissingReason" is false for an empty (as opposed to
absent) reason. -/
theorem C3_counterexample :
    exTaskInProgress.can_transition "done" = true ∧
    update_status exTaskInProgress ⟨some "done", some ""⟩ "alice" 5 true =
      .error .fieldError ∧
    update_status exTaskInProgress ⟨some "done", some ""⟩ "alice" 5 true ≠
      .error .missingReason := by
  refine ⟨rfl, rfl, ?_⟩
  intro h
  rw [show update_status exTaskInProgress ⟨some "done", some ""⟩ "alice" 5
      true = Except.error UpdErr.fieldError from rfl] at h
  exact absurd h (by simp)

/-- C3 (amended): for a table-allowed transition to `done` or `cancelled`,
an absent reason is rejected with MissingReason; a blank (whitespace-only)
reason for any target is rejected earlier as a serializer field error; in
both cases the rejection happens before any mutation and the stored row is
unchanged.  With a non-blank reason and an allowed transition the call
succeeds, the activity-log `details.reason` equals the trimmed supplied
reason, and (when the task's chat room exists) a system message ending in
". Reason: {reason}" is persisted and published. -/
theorem C3_reason_policy :
    (∀ (task : Task) (s actor : String) (now : Nat) (re : Bool),
      (s = "done" ∨ s = "cancelled") → task.can_transition s = true →
      update_status task ⟨some s, none⟩ actor now re = .error .missingReason ∧
      update_status_state task ⟨some s, none⟩ actor now re = task) ∧
    (∀ (task : Task) (s actor r : String) (now : Nat) (re : Bool),
      pyStrip r = "" →
      update_status task ⟨some s, some r⟩ actor now re = .error .fieldError ∧
      update_status_state task ⟨some s, some r⟩ actor now re = task) ∧
    (∀ (task : Task) (s actor r : String) (now : Nat),
      task.can_transition s = true → pyStrip r ≠ "" →
      update_status task ⟨some s, some r⟩ actor now true =
        .ok
          { task := { task with
              status := s
              completedAt := if s == "done" then some now else task.completedAt }
            details := ⟨task.status, s, some (pyStrip r)⟩
            notified := task.assignedTo
            systemMessage := some ("Status changed to " ++ s ++ " by " ++
              actor ++ ". Reason: " ++ pyStrip r) }) := by
  refine ⟨?_, ?_, ?_⟩
  · intro task s actor now re hcrit hB
    rcases hcrit with rfl | rfl <;> constructor
    · unfold update_status statusUpdateValidate
      simp [hB, statusChoices]
    · unfold update_status_state update_status statusUpdateValidate
      simp [hB, statusChoices]
    · unfold update_status statusUpdateValidate
      simp [hB, statusChoices]
    · unfold update_status_state update_status statusUpdateValidate
      simp [hB, statusChoices]
  · intro task s actor r now re hblank
    constructor
    · unfold update_status statusUpdateValidate
      by_cases hA : s ∈ statusChoices
      · simp [hA, hblank]
      · simp [hA]
    · unfold update_status_state update_status statusUpdateValidate
      by_cases hA : s ∈ statusChoices
      · simp [hA, hblank]
      · simp [hA]
  · intro task s actor r now hB hr
    have hA : s ∈ statusChoices := by
      simpa using can_transition_mem_choices task s hB
    unfold update_status statusUpdateValidate
    simp [hA, hB, hr]

/-- Witness for `C3_reason_policy` at a concrete successful transition with
a padded reason string. -/
theorem C3_reason_policy_witness :
    update_status exTaskInProgress ⟨some "done", some " all tests pass "⟩
        "alice" 5 true =
      .ok
        { task := { exTaskInProgress with
            status := "done"
            completedAt := if "done" == "done" then some 5
              else exTaskInProgress.completedAt }
          details := ⟨exTaskInProgress.status, "done",
            some (pyStrip " all tests pass ")⟩
          notified := exTaskInProgress.assignedTo
          systemMessage := some ("Status changed to " ++ "done" ++ " by " ++
            "alice" ++ ". Reason: " ++ pyStrip " all tests pass ") } :=
  C3_reason_policy.2.2 exTaskInProgress "done" "alice" " all tests pass " 5
    rfl (by decide)

/-! ### Assignment workflow (views.py lines 223-320, models.py lines 135-160)

`TaskAssignment` rows are unique per `(task, user)`
(`unique_together`), status defaults to `pending`. -/

/-- A row of the `TaskAssignment` model. -/
structure Assignment where
  id : Nat
  taskId : Nat
  userId : Nat
  assignedById : Option Nat
  status : String
  reason : Option String
  respondedAt : Option Nat
deriving Repr, DecidableEq

/-- The assignment table plus its id sequence. -/
structure AssignDB where
  assignments : List Assignment
  nextId : Nat
deriving Repr, DecidableEq

/-- What `propose_assignment` persists/emits: the new table, the
`created_assignment_ids` of the response, and one `assignment_proposed`
notification per newly created row as `(userId, assignmentId)`. -/
structure ProposeOutcome where
  db : AssignDB
  createdIds : List Nat
  notifications : List (Nat × Nat)
deriving Repr, DecidableEq

/-- One iteration of the `propose_assignment` loop body (views.py lines
232-251): skip silently on an unknown user id; `get_or_create` the
assignment keyed on `(task, user)`; only on creation record the id and
notify the user. -/
def proposeStep (taskId actorId : Nat) (usersDb : List User)
    (st : ProposeOutcome) (uid : Nat) : ProposeOutcome :=
  if !(usersDb.any (fun u => u.id == uid)) then st
  else
    match st.db.assignments.find?
        (fun a => a.taskId == taskId && a.userId == uid) with
    | some _ => st
    | none =>
      let newA : Assignment :=
        ⟨st.db.nextId, taskId, uid, some actorId, "pending", none, none⟩
      { db := ⟨st.db.assignments ++ [newA], st.db.nextId + 1⟩
        createdIds := st.createdIds ++ [newA.id]
        notifications := st.notifications ++ [(uid, newA.id)] }

/-- `TaskViewSet.propose_assignment` (views.py lines 223-254). -/
def propose_assignment (db : AssignDB) (usersDb : List User) (taskId : Nat)
    (userIds : List Nat) (actorId : Nat) : Except Unit ProposeOutcome :=
  if userIds.isEmpty then .error ()
  else .ok (userIds.foldl (proposeStep taskId actorId usersDb) ⟨db, [], []⟩)

/-- The assignment rows stored for a given `(task, user)` pair. -/
def assignmentsFor (db : AssignDB) (taskId uid : Nat) : List Assignment :=
  db.assignments.filter (fun a => a.taskId == taskId && a.userId == uid)

/-- The assignment row created by a first proposal of `(taskId, u)`. -/
def freshAssignment (db : AssignDB) (taskId u actorId : Nat) : Assignment :=
  ⟨db.nextId, taskId, u, some actorId, "pending", none, none⟩

/-- C6 counterexample: the second, repeated `propose(task, [u])` call is a
no-op on the table but responds with `created_assignment_ids = []` — it
does not return the existing assignment's id (1). -/
theorem C6_counterexample :
    propose_assignment ⟨[], 1⟩ [⟨7, "clerk", "bob"⟩] 1 [7] 2 =
      .ok ⟨⟨[⟨1, 1, 7, some 2, "pending", none, none⟩], 2⟩, [1], [(7, 1)]⟩ ∧
    propose_assignment ⟨[⟨1, 1, 7, some 2, "pending", none, none⟩], 2⟩
        [⟨7, "clerk", "bob"⟩] 1 [7] 2 =
      .ok ⟨⟨[⟨1, 1, 7, some 2, "pending", none, none⟩], 2⟩, [], []⟩ ∧
    ¬ (1 : Nat) ∈ ([] : List Nat) :=
  ⟨rfl, rfl, by decide⟩

/-- C6 (amended): starting from a state with no assignment for
`(task, u)` and a known user `u`, the first `propose(task, [u])` creates
exactly one pending row and returns its id; repeating the call leaves the
table unchanged, creates no duplicate, and responds with an empty
`created_assignment_ids` list (it does not return the existing id).
Exactly one pending assignment row for `(task, u)` exists afterwards. -/
theorem C6_propose_repeat (db : AssignDB) (usersDb : List User)
    (taskId u actorId : Nat)
    (hu : usersDb.any (fun x => x.id == u) = true)
    (hnone : db.assignments.find?
      (fun a => a.taskId == taskId && a.userId == u) = none) :
    propose_assignment db usersDb taskId [u] actorId =
      .ok ⟨⟨db.assignments ++ [freshAssignment db taskId u actorId],
        db.nextId + 1⟩, [db.nextId], [(u, db.nextId)]⟩ ∧
    propose_assignment
        ⟨db.assignments ++ [freshAssignment db taskId u actorId],
          db.nextId + 1⟩ usersDb taskId [u] actorId =
      .ok ⟨⟨db.assignments ++ [freshAssignment db taskId u actorId],
        db.nextId + 1⟩, [], []⟩ ∧
    assignmentsFor
        ⟨db.assignments ++ [freshAssignment db taskId u actorId],
          db.nextId + 1⟩ taskId u =
      [freshAssignment db taskId u actorId] ∧
    (freshAssignment db taskId u actorId).status = "pending" := by
  refine ⟨?_, ?_, ?_, rfl⟩
  · unfold propose_assignment
    simp only [List.isEmpty_cons, Bool.false_eq_true, if_false, List.foldl,
      proposeStep, hu, Bool.not_true, hnone]
    rfl
  · unfold propose_assignment
    simp only [List.isEmpty_cons, Bool.false_eq_true, if_false, List.foldl,
      proposeStep, hu, Bool.not_true]
    rw [List.find?_append, hnone]
    simp [freshAssignment]
  · unfold assignmentsFor
    simp only [List.filter_append]
    have h1 : db.assignments.filter
        (fun a => a.taskId == taskId && a.userId == u) = [] := by
      rw [List.filter_eq_nil_iff]
      intro a ha
      exact List.find?_eq_none.mp hnone a ha
    rw [h1]
    simp [freshAssignment]

/-- Witness for `C6_propose_repeat` at the concrete two-call run of
`C6_counterexample`. -/
theorem C6_propose_repeat_witness :
    propose_assignment ⟨[], 5⟩ [⟨7, "clerk", "bob"⟩] 3 [7] 2 =
      .ok ⟨⟨[freshAssignment ⟨[], 5⟩ 3 7 2], 6⟩, [5], [(7, 5)]⟩ :=
  (C6_propose_repeat ⟨[], 5⟩ [⟨7, "clerk", "bob"⟩] 3 7 2 (by decide) rfl).1

/-- The failure responses of `respond_assignment`. -/
inductive RespondErr where
  | taskNotFound
  | badRequest
  | notFound
  | alreadyResponded
deriving Repr, DecidableEq

/-- What `respond_assignment` persists/emits on success. -/
structure RespondOutcome where
  tasks : List Task
  db : AssignDB
  result : String
  logs : List (Nat × String)
  notified : List Nat
  systemMessage : Option String
deriving Repr, DecidableEq

/-- `TaskViewSet.respond_assignment` (views.py lines 256-320): 404 on an
unknown task id, 400 on a missing `assignment_id` (Python falsiness of 0)
or an action outside accept/reject, 404 unless an assignment with that id
belongs to this task *and* to the acting user, 400 (`AlreadyResponded`)
unless its status is `pending`; otherwise resolve it, stamp
`responded_at`, store the reason (`reason or ''`), on accept add the actor
to the task's assignee set, log, notify the proposer (falling back to the
actor), and emit a system chat message when the task room exists. -/
def respond_assignment (tasks : List Task) (db : AssignDB)
    (taskId assignmentId actorId : Nat) (act : String)
    (reason : Option String) (now : Nat) (roomExists : Bool)
    (actorName : String) : Except RespondErr RespondOutcome :=
  match tasks.find? (fun t => t.id == taskId) with
  | none => .error .taskNotFound
  | some task =>
    if assignmentId == 0 || !(act == "accept" || act == "reject") then
      .error .badRequest
    else
      match db.assignments.find? (fun a =>
          a.id == assignmentId && a.taskId == taskId && a.userId == actorId) with
      | none => .error .notFound
      | some a =>
        if a.status != "pending" then .error .alreadyResponded
        else
          let newStatus := if act == "accept" then "accepted" else "rejected"
          let a2 := { a with
            status := newStatus
            respondedAt := some now
            reason := some (reason.getD "") }
          let db2 : AssignDB :=
            ⟨db.assignments.map (fun b => if b.id == a.id then a2 else b),
              db.nextId⟩
          let tasks2 :=
            if act == "accept" then
              tasks.map (fun t =>
                if t.id == taskId then
                  { t with assignedTo :=
                      if t.assignedTo.contains actorId then t.assignedTo
                      else t.assignedTo ++ [actorId] }
                else t)
            else tasks
          let verb := if act == "accept" then "accepted" else "rejected"
          .ok
            { tasks := tasks2
              db := db2
              result := newStatus
              logs := [(taskId, if act == "accept" then "assignment_accepted"
                else "assignment_rejected")]
              notified := [a.assignedById.getD actorId]
              systemMessage :=
                if roomExists then
                  some (actorName ++ " " ++ verb ++ " assignment for task: " ++
                    task.title)
                else none }

/-- The stored state (task table, assignment table) after a
`respond_assignment` call: unchanged when the view rejects the request. -/
def respond_state (tasks : List Task) (db : AssignDB)
    (taskId assignmentId actorId : Nat) (act : String)
    (reason : Option String) (now : Nat) (roomExists : Bool)
    (actorName : String) : List Task × AssignDB :=
  match respond_assignment tasks db taskId assignmentId actorId act reason
      now roomExists actorName with
  | .error _ => (tasks, db)
  | .ok o => (o.tasks, o.db)

/-- C7: with a well-formed request (existing task, non-zero assignment id,
action in accept/reject), `respond_assignment` fails `NotFound` exactly
when no stored assignment has the given id, belongs to the task, and
belongs to the acting user; it fails `AlreadyResponded` when the matching
assignment is not pending; and on every rejection both the task table and
the assignment table (hence status and responded_at) are unchanged. -/
theorem C7_respond_guards (tasks : List Task) (db : AssignDB)
    (taskId assignmentId actorId : Nat) (act : String)
    (reason : Option String) (now : Nat) (re : Bool) (actorName : String)
    (htask : (tasks.find? (fun t => t.id == taskId)).isSome = true)
    (hreq : (assignmentId == 0 || !(act == "accept" || act == "reject")) =
      false) :
    (respond_assignment tasks db taskId assignmentId actorId act reason now
        re actorName = .error .notFound ↔
      db.assignments.find? (fun a =>
        a.id == assignmentId && a.taskId == taskId && a.userId == actorId) =
          none) ∧
    (∀ a, db.assignments.find? (fun a =>
        a.id == assignmentId && a.taskId == taskId && a.userId == actorId) =
          some a →
      a.status ≠ "pending" →
      respond_assignment tasks db taskId assignmentId actorId act reason now
        re actorName = .error .alreadyResponded) ∧
    (∀ e, respond_assignment tasks db taskId assignmentId actorId act reason
        now re actorName = .error e →
      respond_state tasks db taskId assignmentId actorId act reason now re
        actorName = (tasks, db)) := by
  obtain ⟨task, htask2⟩ := Option.isSome_iff_exists.mp htask
  refine ⟨?_, ?_, ?_⟩
  · unfold respond_assignment
    rw [htask2, hreq]
    cases hfind : db.assignments.find? (fun a =>
        a.id == assignmentId && a.taskId == taskId && a.userId == actorId) with
    | none => simp
    | some a =>
      simp only [Bool.false_eq_true, if_false]
      constructor
      · intro h
        split at h
        · exact absurd h (by simp)
        · exact absurd h (by simp)
      · intro h
        exact absurd h (by simp)
  · intro a hfind ha
    unfold respond_assignment
    rw [htask2, hreq, hfind]
    have ha2 : (a.status != "pending") = true := by
      simpa using ha
    simp [ha2]
  · intro e h
    unfold respond_state
    rw [h]

/-- Witness for `C7_respond_guards`: responding to an already-accepted
assignment is rejected and the stored tables are unchanged. -/
theorem C7_respond_guards_witness :
    respond_assignment [exTaskInProgress]
        ⟨[⟨1, 1, 7, some 2, "accepted", some "", some 3⟩], 2⟩
        1 1 7 "accept" none 9 true "bob" = .error .alreadyResponded :=
  (C7_respond_guards [exTaskInProgress]
    ⟨[⟨1, 1, 7, some 2, "accepted", some "", some 3⟩], 2⟩
    1 1 7 "accept" none 9 true "bob" rfl rfl).2.1
    ⟨1, 1, 7, some 2, "accepted", some "", some 3⟩ rfl (by decide)

/-! ### Chat rooms (backend/apps/chat/models.py lines 10-66)

`ChatRoomManager.get_or_create_direct` filters the rooms that are direct
and contain both users, takes `.first()` under the model's default
ordering (`-updated_at`), and otherwise creates a room and adds both
participants. -/

/-- A row of the `ChatRoom` model (the fields the claims touch). -/
structure ChatRoom where
  id : Nat
  roomType : String
  participants : List Nat
  updatedAt : Nat
deriving Repr, DecidableEq

/-- The chat-room table, its id sequence, and the clock feeding
`updated_at`. -/
structure ChatDB where
  rooms : List ChatRoom
  nextId : Nat
  now : Nat
deriving Repr, DecidableEq

/-- The queryset
`filter(room_type='direct', participants=user1).filter(participants=user2)`. -/
def directFilter (db : ChatDB) (u1 u2 : Nat) : List ChatRoom :=
  (db.rooms.filter (fun r =>
    r.roomType == "direct" && r.participants.contains u1)).filter
      (fun r => r.participants.contains u2)

/-- `.first()` under `ChatRoom.Meta.ordering = ['-updated_at']`. -/
def firstByUpdated (l : List ChatRoom) : Option ChatRoom :=
  (List.insertionSort (fun a b : ChatRoom => b.updatedAt ≤ a.updatedAt) l).head?

/-- `ChatRoomManager.get_or_create_direct` (chat/models.py lines 11-25):
returns `(room, created)` and the resulting table. -/
def get_or_create_direct (db : ChatDB) (u1 u2 : Nat) :
    ChatRoom × Bool × ChatDB :=
  match firstByUpdated (directFilter db u1 u2) with
  | some r => (r, false, db)
  | none =>
    let room : ChatRoom :=
      ⟨db.nextId, "direct", if u1 == u2 then [u1] else [u1, u2], db.now⟩
    (room, true, ⟨room :: db.rooms, db.nextId + 1, db.now + 1⟩)

/-- C8: direct-room resolution is order-independent — the queryset is
symmetric in the two users, so lookups for `(u1,u2)` and `(u2,u1)` see
exactly the same candidate rooms; when no direct room for the pair exists,
the first call creates one, and every later call in either argument order
returns that same room without touching the table, which afterwards holds
exactly one direct room containing both users; a found room is returned
with `created=False` and the table untouched. -/
theorem C8_direct_room_resolution :
    (∀ (db : ChatDB) (u1 u2 : Nat),
      directFilter db u1 u2 = directFilter db u2 u1) ∧
    (∀ (db : ChatDB) (u1 u2 : Nat), u1 ≠ u2 →
      directFilter db u1 u2 = [] →
      ∃ r db2, get_or_create_direct db u1 u2 = (r, true, db2) ∧
        get_or_create_direct db2 u1 u2 = (r, false, db2) ∧
        get_or_create_direct db2 u2 u1 = (r, false, db2) ∧
        directFilter db2 u1 u2 = [r]) ∧
    (∀ (db : ChatDB) (u1 u2 : Nat) (r : ChatRoom),
      firstByUpdated (directFilter db u1 u2) = some r →
      get_or_create_direct db u1 u2 = (r, false, db)) := by
  have hsymm : ∀ (db : ChatDB) (u1 u2 : Nat),
      directFilter db u1 u2 = directFilter db u2 u1 := by
    intro db u1 u2
    unfold directFilter
    rw [List.filter_filter, List.filter_filter]
    apply List.filter_congr
    intro r _
    cases hd : (r.roomType == "direct") <;>
      cases h1 : (r.participants.contains u1) <;>
      cases h2 : (r.participants.contains u2) <;> rfl
  refine ⟨hsymm, ?_, ?_⟩
  · intro db u1 u2 hne hempty
    have hne2 : (u1 == u2) = false := by simpa using hne
    have hf : directFilter
        ⟨⟨db.nextId, "direct", [u1, u2], db.now⟩ :: db.rooms,
          db.nextId + 1, db.now + 1⟩ u1 u2 =
        [⟨db.nextId, "direct", [u1, u2], db.now⟩] := by
      unfold directFilter at hempty ⊢
      rw [List.filter_cons_of_pos (by simp), List.filter_cons_of_pos (by simp),
        hempty]
    refine ⟨⟨db.nextId, "direct", [u1, u2], db.now⟩,
      ⟨⟨db.nextId, "direct", [u1, u2], db.now⟩ :: db.rooms,
        db.nextId + 1, db.now + 1⟩, ?_, ?_, ?_, hf⟩
    · unfold get_or_create_direct
      rw [hempty]
      simp [firstByUpdated, List.insertionSort, hne2]
    · unfold get_or_create_direct
      rw [hf]
      rfl
    · unfold get_or_create_direct
      rw [hsymm _ u2 u1, hf]
      rfl
  · intro db u1 u2 r hfound
    unfold get_or_create_direct
    rw [hfound]

/-- Witness for `C8_direct_room_resolution`: the create-then-resolve run on
an empty table for the pair (1, 2). -/
theorem C8_direct_room_resolution_witness :
    ∃ r db2, get_or_create_direct ⟨[], 10, 0⟩ 1 2 = (r, true, db2) ∧
      get_or_create_direct db2 1 2 = (r, false, db2) ∧
      get_or_create_direct db2 2 1 = (r, false, db2) ∧
      directFilter db2 1 2 = [r] :=
  C8_direct_room_resolution.2.1 ⟨[], 10, 0⟩ 1 2 (by decide) rfl

/-! ### Websocket handshake token extraction
(backend/apps/core/asgi_middleware.py) -/

/-- `_is_valid_token` (asgi_middleware.py lines 10-17): non-empty; after
stripping, the lower-cased value must not be `none`/`null`/empty; exactly
two dots (a `header.payload.signature` shape). -/
def is_valid_token (token : String) : Bool :=
  if token == "" then false
  else
    let t := pyStrip token
    let low := pyLower t
    if low == "none" || low == "null" || low == "" then false
    else (t.toList.count '.') == 2

/-- The handshake metadata the middleware reads: the offered sub-protocol
list, the value of the `access` cookie when the cookie header carries one,
and the values of the `token` query parameter in order. -/
structure WsScope where
  subprotocols : List String
  cookieAccess : Option String
  queryTokens : List String
deriving Repr, DecidableEq

/-- The sub-protocol candidate: the first offered value, if valid. -/
def subprotocolToken (scope : WsScope) : Option String :=
  match scope.subprotocols with
  | [] => none
  | possible :: _ =>
    if is_valid_token possible then some possible else none

/-- The cookie candidate: the `access` cookie value, if present and valid. -/
def cookieToken (scope : WsScope) : Option String :=
  match scope.cookieAccess with
  | none => none
  | some c => if is_valid_token c then some c else none

/-- The query-string candidate: the first `token` parameter, if valid. -/
def queryToken (scope : WsScope) : Option String :=
  match scope.queryTokens with
  | [] => none
  | q :: _ => if is_valid_token q then some q else none

/-- `CookieWebSocketAuthMiddleware.__call__` (asgi_middleware.py lines
33-76): the token attached to the scope — sub-protocol first, then cookie,
then query string, each consulted only while no earlier source produced a
valid token. -/
def extract_ws_token (scope : WsScope) : Option String :=
  match subprotocolToken scope with
  | some t => some t
  | none =>
    match cookieToken scope with
    | some t => some t
    | none => queryToken scope

/-- The candidate list in the spec's priority order: first offered
sub-protocol, the named cookie, the (first) query parameter. -/
def tokenCandidates (scope : WsScope) : List String :=
  scope.subprotocols.head?.toList ++ scope.cookieAccess.toList ++
    scope.queryTokens.head?.toList

/-- C9: the middleware's token is exactly the first candidate, in the order
sub-protocol → cookie → query parameter, that passes the validity check; a
failing candidate is skipped and the next source is tried.  The validity
check accepts precisely the candidates that are non-empty, whose
stripped lower-cased value is not `none`, `null` or empty, and that consist
of exactly three dot-separated segments (two dots). -/
theorem C9_token_extraction :
    (∀ scope : WsScope,
      extract_ws_token scope =
        (tokenCandidates scope).find? is_valid_token) ∧
    (∀ t : String, is_valid_token t = true ↔
      (t ≠ "" ∧
        pyLower (pyStrip t) ∉ (["none", "null", ""] : List String) ∧
        (pyStrip t).toList.count '.' = 2)) := by
  constructor
  · intro scope
    have h1 : scope.subprotocols.head?.toList.find? is_valid_token =
        subprotocolToken scope := by
      unfold subprotocolToken
      cases scope.subprotocols with
      | nil => rfl
      | cons p ps =>
        cases hv : is_valid_token p <;> simp [List.find?, hv]
    have h2 : scope.cookieAccess.toList.find? is_valid_token =
        cookieToken scope := by
      unfold cookieToken
      cases scope.cookieAccess with
      | none => rfl
      | some c =>
        cases hv : is_valid_token c <;> simp [List.find?, hv]
    have h3 : scope.queryTokens.head?.toList.find? is_valid_token =
        queryToken scope := by
      unfold queryToken
      cases scope.queryTokens with
      | nil => rfl
      | cons q qs =>
        cases hv : is_valid_token q <;> simp [List.find?, hv]
    unfold extract_ws_token tokenCandidates
    rw [List.find?_append, List.find?_append, h1, h2, h3]
    cases subprotocolToken scope <;> cases cookieToken scope <;>
      simp [Option.or]
  · intro t
    unfold is_valid_token
    by_cases h0 : t = ""
    · subst h0
      simp
    · have h0b : (t == "") = false := by simpa using h0
      rw [h0b]
      simp only [Bool.false_eq_true, if_false, h0, ne_eq,
        not_false_eq_true, true_and]
      by_cases hn : pyLower (pyStrip t) = "none"
      · simp [hn]
      · by_cases hl : pyLower (pyStrip t) = "null"
        · simp [hl]
        · by_cases he : pyLower (pyStrip t) = ""
          · simp [hn, hl, he]
          · simp [hn, hl, he]

/-! ### Consumer handshakes (backend/apps/chat/consumers.py lines 13-44 and
287-322) -/

/-- The suffix of `l` after the last occurrence of `sep`, scanning
rightmost-first; `none` when `sep` does not occur. -/
def afterLast (sep : List Char) : List Char → Option (List Char)
  | [] => none
  | c :: rest =>
    match afterLast sep rest with
    | some r => some r
    | none =>
      if sep.isPrefixOf (c :: rest) then some ((c :: rest).drop sep.length)
      else none

/-- `query_string.split('token=')[-1] if 'token=' in query_string else ''`
(consumers.py lines 18 and 294): the substring after the *last*
`token=`. -/
def extractQsToken (qs : String) : String :=
  match afterLast ("token=".toList) qs.toList with
  | some suffix => suffix.asString
  | none => ""

/-- The result of `jwt.decode(token, SECRET_KEY, algorithms=['HS256'])`
combined with reading `int(payload['user_id'])`, abstracted as an oracle:
`ok uid` on a valid unexpired signature carrying that user id. -/
inductive JwtResult where
  | ok (userId : Nat)
  | expired
  | invalid
deriving Repr, DecidableEq

/-- The connection scope as the consumers see it: the raw query string plus
whatever the middleware chain already resolved (`scope['auth_token']` from
the cookie/sub-protocol middleware, and any resolved principal). -/
structure ConnectScope where
  queryString : String
  authToken : Option String
  scopeUser : Option Nat
deriving Repr, DecidableEq

/-- Outcome of a consumer handshake: `accept()` as an authenticated user,
or `close()`. -/
inductive ConnectResult where
  | accepted (userId : Nat)
  | closed
deriving Repr, DecidableEq

/-- `ChatConsumer.connect` / `NotificationConsumer.connect` authentication
(consumers.py lines 13-44, 287-322): decode the query-string token; on any
decode failure or unknown user, close; otherwise accept.  The scope's
`auth_token` and any resolved principal are never consulted. -/
def consumer_connect (decode : String → JwtResult) (userExists : Nat → Bool)
    (scope : ConnectScope) : ConnectResult :=
  match decode (extractQsToken scope.queryString) with
  | .ok uid => if userExists uid then .accepted uid else .closed
  | .expired => .closed
  | .invalid => .closed

/-- C10: a consumer handshake is accepted for user `uid` iff the token cut
from the raw query string (after the last `token=`) decodes to `uid` and
that user exists; the outcome is entirely independent of the middleware's
`auth_token`/resolved principal, so a credential offered only via
sub-protocol or cookie (leaving the query string without a decodable
`token=`) never completes the handshake. -/
theorem C10_consumer_auth :
    (∀ (decode : String → JwtResult) (userExists : Nat → Bool)
      (scope : ConnectScope) (uid : Nat),
      consumer_connect decode userExists scope = .accepted uid ↔
        decode (extractQsToken scope.queryString) = .ok uid ∧
          userExists uid = true) ∧
    (∀ (decode : String → JwtResult) (userExists : Nat → Bool)
      (qs : String) (a a2 : Option String) (p p2 : Option Nat),
      consumer_connect decode userExists ⟨qs, a, p⟩ =
        consumer_connect decode userExists ⟨qs, a2, p2⟩) ∧
    (∀ (decode : String → JwtResult) (userExists : Nat → Bool)
      (qs : String) (a : Option String) (p : Option Nat),
      (∀ u, decode "" ≠ .ok u) →
      afterLast ("token=".toList) qs.toList = none →
      consumer_connect decode userExists ⟨qs, a, p⟩ = .closed) ∧
    extractQsToken "a=1&token=abc&token=def.g.h" = "def.g.h" := by
  refine ⟨?_, ?_, ?_, by decide⟩
  · intro decode userExists scope uid
    unfold consumer_connect
    cases hd : decode (extractQsToken scope.queryString) with
    | ok u =>
      cases hu : userExists u with
      | true =>
        simp only [hu, if_true]
        constructor
        · intro h
          obtain rfl : u = uid := by simpa using h
          exact ⟨rfl, hu⟩
        · rintro ⟨h1, _⟩
          obtain rfl : u = uid := by simpa using h1
          rfl
      | false =>
        simp only [hu, Bool.false_eq_true, if_false]
        constructor
        · intro h
          exact ConnectResult.noConfusion h
        · rintro ⟨h1, h2⟩
          obtain rfl : u = uid := by simpa using h1
          rw [hu] at h2
          exact Bool.noConfusion h2
    | expired =>
      constructor
      · intro h
        exact ConnectResult.noConfusion h
      · rintro ⟨h1, _⟩
        exact JwtResult.noConfusion h1
    | invalid =>
      constructor
      · intro h
        exact ConnectResult.noConfusion h
      · rintro ⟨h1, _⟩
        exact JwtResult.noConfusion h1
  · intro decode userExists qs a a2 p p2
    rfl
  · intro decode userExists qs a p hdec hnone
    unfold consumer_connect extractQsToken
    rw [hnone]
    cases hd : decode "" with
    | ok u => exact absurd hd (hdec u)
    | expired => rfl
    | invalid => rfl

/-- Witness for `C10_consumer_auth`: a handshake whose scope carries a
cookie-resolved token and principal but no query-string credential is
closed. -/
theorem C10_consumer_auth_witness :
    consumer_connect (fun _ => .invalid) (fun _ => true)
      ⟨"nope", some "x.y.z", some 3⟩ = .closed :=
  C10_consumer_auth.2.2.1 (fun _ => .invalid) (fun _ => true) "nope"
    (some "x.y.z") (some 3)
    (fun _ h => JwtResult.noConfusion h) rfl

end RTTM
